import Mathlib

/-!
Shallow embedding of the core of `src/util/mod.rs` from `wusyong/cargo-mobile`:
the toolchain version model (`RustVersion`), its compatibility predicate
(`RustVersion::valid`), the pattern extractor (`run_and_search`) and the
process relay (`pipe`), together with proofs of the specified properties.

External effects (running a command, spawning a child, writing to its stdin,
waiting for it) are modelled by an environment record holding the outcome of
each effectful step, and the functions additionally return a trace of the
effectful actions they performed, so that statements such as "the consumer is
never spawned" or "the wait is attempted even when the write failed" are
directly expressible.
-/

/-- The error type of the `bossy` process library, kept abstract: only its
identity matters to the control flow being modelled. -/
structure BossyError where
  msg : String
deriving DecidableEq, Repr

/-- The `std::io::Error` type, kept abstract. -/
structure IoError where
  msg : String
deriving DecidableEq, Repr

/-- The `std::num::ParseIntError` type, kept abstract. -/
structure ParseIntError where
  msg : String
deriving DecidableEq, Repr

/-- `RunAndSearchError` from `src/util/mod.rs`: either the command failed to
run, or its output failed to match the regex (carrying the command display
string and the full output). -/
inductive RunAndSearchError where
  | CommandFailed (err : BossyError)
  | SearchFailed (command : String) (output : String)
deriving DecidableEq, Repr

/-- `RustVersionError` from `src/util/mod.rs`: a command failure, or a
field-specific numeric parse failure carrying the rejected substring
(the version string for major/minor/patch, the date string for
year/month/day). -/
inductive RustVersionError where
  | CommandFailed (err : RunAndSearchError)
  | MajorInvalid (version : String) (source : ParseIntError)
  | MinorInvalid (version : String) (source : ParseIntError)
  | PatchInvalid (version : String) (source : ParseIntError)
  | YearInvalid (date : String) (source : ParseIntError)
  | MonthInvalid (date : String) (source : ParseIntError)
  | DayInvalid (date : String) (source : ParseIntError)
deriving DecidableEq, Repr

/-- `RustVersion` from `src/util/mod.rs`: a (major, minor, patch) triple, an
optional (flavor, optional candidate) pair, a build hash, and a
(year, month, day) date triple.  Rust `u32` fields are modelled as `Nat`. -/
structure RustVersion where
  triple : Nat × Nat × Nat
  flavor : Option (String × Option String)
  hash : String
  date : Nat × Nat × Nat
deriving DecidableEq, Repr

/-- Lexicographic `<=` on triples, as derived by Rust `#[derive(PartialOrd, Ord)]`
for `(u32, u32, u32)` and used by the `<=`/`>=` operators in
`RustVersion::valid`. -/
def lexLe3 : Nat × Nat × Nat → Nat × Nat × Nat → Bool
  | (a1, a2, a3), (b1, b2, b3) =>
    a1 < b1 || (a1 == b1 && (a2 < b2 || (a2 == b2 && a3 ≤ b3)))

/-- `RustVersion::check` from `src/util/mod.rs`.  In the source the entire
command-running and pattern-matching body is commented out; the live code is
a single `Ok(Self { .. })` with hardcoded fields.  The embedding is therefore
a pure constant: no command is run and no pattern is applied. -/
def RustVersion.check : Except RustVersionError RustVersion :=
  Except.ok { triple := (1, 49, 0), flavor := none, hash := "fffffffff", date := (2021, 2, 11) }

/-- `RustVersion::valid` from `src/util/mod.rs`.  The `cfg!(target_os = "macos")`
compile-time test is modelled by the `macos` parameter.  The constants and the
comparison structure are carried over verbatim from the source. -/
def RustVersion.valid (macos : Bool) (v : RustVersion) : Bool :=
  if macos then
    let lastGoodStable : Nat × Nat × Nat := (1, 45, 2)
    let nextGoodStable : Nat × Nat × Nat := (1, 49, 0)
    let firstGoodNightly : Nat × Nat × Nat := (2020, 10, 24)
    let oldGood := lexLe3 v.triple lastGoodStable
    let newGood := lexLe3 nextGoodStable v.triple && lexLe3 firstGoodNightly v.date
    oldGood || newGood
  else
    true

/-- The `Display` impl for `RustVersion` from `src/util/mod.rs`:
`major.minor.patch`, then `-flavor` and `.candidate` only when present, then
a space and `(hash year-month-day)`.  `toString` on `Nat` renders decimal
without leading zeros, as Rust `u32` `Display` does. -/
def RustVersion.display (v : RustVersion) : String :=
  toString v.triple.1 ++ "." ++ toString v.triple.2.1 ++ "." ++ toString v.triple.2.2
    ++ (match v.flavor with
        | none => ""
        | some (flavor, candidate) =>
          "-" ++ flavor
            ++ (match candidate with
                | none => ""
                | some c => "." ++ c))
    ++ " (" ++ v.hash ++ " " ++ toString v.date.1 ++ "-" ++ toString v.date.2.1
    ++ "-" ++ toString v.date.2.2 ++ ")"

/-- `run_and_search` from `src/util/mod.rs`.  The command run is modelled by
its display string and the outcome of `run_and_wait_for_str` (the captured
output on success); the compiled regex is modelled by its capture function
`String → Option (List String)`.  On a command failure the `bossy` error is
wrapped; on a failed search the command string and the unmodified output are
returned; on a match the transform is applied to the full text and to the
captures. -/
def run_and_search {T : Type} (commandDisplay : String)
    (runOutcome : Except BossyError String)
    (captures : String → Option (List String))
    (f : String → List String → T) : Except RunAndSearchError T :=
  match runOutcome with
  | Except.error err => Except.error (RunAndSearchError.CommandFailed err)
  | Except.ok output =>
    match captures output with
    | none => Except.error (RunAndSearchError.SearchFailed commandDisplay output)
    | some caps => Except.ok (f output caps)

/-- `PipeError` from `src/util/mod.rs`. -/
inductive PipeError where
  | TxCommandFailed (err : BossyError)
  | RxCommandFailed (err : BossyError)
  | PipeFailed (err : IoError)
  | WaitFailed (err : BossyError)
deriving DecidableEq, Repr

/-- The stdio configuration applied to the consumer command in `pipe`:
`with_stdin_piped()` and `with_stdout(bossy::Stdio::inherit())`. -/
inductive StdioCfg where
  | piped
  | inherit
deriving DecidableEq, Repr

/-- The effectful steps `pipe` can perform, recorded as a trace: running the
producer, spawning the consumer (with its stdin/stdout configuration),
writing the producer output into the consumer stdin, and waiting for the
consumer to exit. -/
inductive PipeEvent where
  | runTx
  | spawnRx (stdinCfg : StdioCfg) (stdoutCfg : StdioCfg)
  | writeStdin
  | waitRx
deriving DecidableEq, Repr

/-- The environment of one `pipe` call: the outcome of each effectful step,
were it to be attempted.  The producer outcome carries the captured stdout
text on success. -/
structure PipeEnv where
  txOutcome : Except BossyError String
  rxSpawnOutcome : Except BossyError Unit
  writeOutcome : Except IoError Unit
  waitOutcome : Except BossyError Unit
deriving Repr

/-- `pipe` from `src/util/mod.rs`.  Runs the producer; if its stdout is
nonempty, spawns the consumer with stdin piped and stdout inherited, computes
the write result and the wait result (the wait is performed unconditionally,
before either result is inspected, exactly as in the source), then propagates
the write error first, the wait error second, and otherwise returns `true`.
If the producer stdout is empty, returns `false` without touching the
consumer.  The returned trace records the effectful steps performed. -/
def pipe (env : PipeEnv) : Except PipeError Bool × List PipeEvent :=
  match env.txOutcome with
  | Except.error e => (Except.error (PipeError.TxCommandFailed e), [PipeEvent.runTx])
  | Except.ok txStdout =>
    if !txStdout.isEmpty then
      match env.rxSpawnOutcome with
      | Except.error e =>
        (Except.error (PipeError.RxCommandFailed e),
          [PipeEvent.runTx, PipeEvent.spawnRx StdioCfg.piped StdioCfg.inherit])
      | Except.ok _ =>
        let pipeResult : Except PipeError Unit :=
          match env.writeOutcome with
          | Except.error e => Except.error (PipeError.PipeFailed e)
          | Except.ok _ => Except.ok ()
        let waitResult : Except PipeError Unit :=
          match env.waitOutcome with
          | Except.error e => Except.error (PipeError.WaitFailed e)
          | Except.ok _ => Except.ok ()
        let events := [PipeEvent.runTx, PipeEvent.spawnRx StdioCfg.piped StdioCfg.inherit,
          PipeEvent.writeStdin, PipeEvent.waitRx]
        match pipeResult with
        | Except.error e => (Except.error e, events)
        | Except.ok _ =>
          match waitResult with
          | Except.error e => (Except.error e, events)
          | Except.ok _ => (Except.ok true, events)
    else
      (Except.ok false, [PipeEvent.runTx])

/-- Whether a trace event is a spawn of the consumer command. -/
def PipeEvent.isSpawnRx : PipeEvent → Bool
  | PipeEvent.spawnRx _ _ => true
  | _ => false

/-- A concrete capture function for exercising `run_and_search`: matches
exactly the strings of length three, capturing the whole string. -/
def caps0 (s : String) : Option (List String) :=
  if s.length == 3 then some [s] else none

/-- A concrete transform for exercising `run_and_search`. -/
def f0 (text : String) (_caps : List String) : Nat := text.length

/-- Claim C1 (code evaluation): `RustVersion.check` always returns `Ok`, so no
field-specific parse error (`MajorInvalid` … `DayInvalid`) is ever produced.
The source comments out the entire pattern-matching and field-parsing body of
`check` and replaces it with a hardcoded `Ok`, so the field-specific error
path described by the spec is unreachable. -/
theorem check_never_field_error : ∃ v : RustVersion, RustVersion.check = Except.ok v :=
  ⟨_, rfl⟩

/-- Claim C2: `RustVersion.check` returns `Ok` with exactly triple (1, 49, 0),
no flavor, hash `"fffffffff"`, date (2021, 2, 11); being a pure constant it
runs no command and applies no pattern. -/
theorem check_constant : RustVersion.check =
    Except.ok { triple := (1, 49, 0), flavor := none, hash := "fffffffff", date := (2021, 2, 11) } :=
  rfl

/-- Claim C3: on every operating system other than macOS, `valid` returns
`true` for every version value. -/
theorem valid_non_macos (v : RustVersion) : v.valid false = true := rfl

/-- Claim C4: on macOS, triple (1, 45, 2) — the last known good stable — is
valid for every date, flavor and hash, while triple (1, 45, 3) is invalid for
every date, flavor and hash, because it is above the last good stable but
below the next good stable (1, 49, 0). -/
theorem valid_macos_stable_boundary (flavor : Option (String × Option String))
    (hash : String) (date : Nat × Nat × Nat) :
    RustVersion.valid true ⟨(1, 45, 2), flavor, hash, date⟩ = true ∧
    RustVersion.valid true ⟨(1, 45, 3), flavor, hash, date⟩ = false :=
  ⟨rfl, rfl⟩

/-- Claim C5: on macOS, triple (1, 49, 0) dated (2020, 10, 23) — one day
before the nightly cutoff — is invalid, while the same triple dated exactly
(2020, 10, 24) is valid. -/
theorem valid_macos_nightly_cutoff (flavor : Option (String × Option String)) (hash : String) :
    RustVersion.valid true ⟨(1, 49, 0), flavor, hash, (2020, 10, 23)⟩ = false ∧
    RustVersion.valid true ⟨(1, 49, 0), flavor, hash, (2020, 10, 24)⟩ = true :=
  ⟨rfl, rfl⟩

/-- Claim C9: `display` of triple (1, 49, 0), no flavor, hash `"fffffffff"`,
date (2021, 2, 11) is exactly `"1.49.0 (fffffffff 2021-2-11)"`; with a flavor
the `-flavor` part appears, and with a candidate the `.candidate` part, before
the space and the parenthesised hash and date. -/
theorem display_render :
    RustVersion.display ⟨(1, 49, 0), none, "fffffffff", (2021, 2, 11)⟩
        = "1.49.0 (fffffffff 2021-2-11)" ∧
    RustVersion.display ⟨(1, 8, 1), some ("beta", some "2"), "abcdefabc", (2017, 1, 20)⟩
        = "1.8.1-beta.2 (abcdefabc 2017-1-20)" ∧
    RustVersion.display ⟨(1, 50, 0), some ("nightly", none), "aaaaaaaaa", (2020, 12, 5)⟩
        = "1.50.0-nightly (aaaaaaaaa 2020-12-5)" :=
  ⟨rfl, rfl, rfl⟩

/-- Claim C6: when the producer runs successfully and its stdout is empty,
`pipe` returns `Ok false` with a trace containing only the producer run: the
consumer is never spawned, written to, or waited for. -/
theorem pipe_empty_output_short_circuit
    (rxs : Except BossyError Unit) (w : Except IoError Unit) (wt : Except BossyError Unit)
    (out : String) (hempty : out.isEmpty = true) :
    pipe ⟨Except.ok out, rxs, w, wt⟩ = (Except.ok false, [PipeEvent.runTx]) ∧
    ((pipe ⟨Except.ok out, rxs, w, wt⟩).2.all fun ev => !ev.isSpawnRx) = true := by
  have h1 : pipe ⟨Except.ok out, rxs, w, wt⟩ = (Except.ok false, [PipeEvent.runTx]) := by
    simp [pipe, hempty]
  refine ⟨h1, ?_⟩
  rw [h1]
  rfl

/-- Witness for claim C6 at the concrete empty output. -/
theorem pipe_empty_output_short_circuit_witness :
    pipe ⟨Except.ok "", Except.ok (), Except.ok (), Except.ok ()⟩
        = (Except.ok false, [PipeEvent.runTx]) ∧
    ((pipe ⟨Except.ok "", Except.ok (), Except.ok (), Except.ok ()⟩).2.all
        fun ev => !ev.isSpawnRx) = true :=
  pipe_empty_output_short_circuit (Except.ok ()) (Except.ok ()) (Except.ok ()) "" rfl

/-- Claim C7: once the consumer is spawned, the wait is attempted even when
the write of producer output into the consumer stdin fails (the trace always
contains the wait event), and when the write fails the returned error is the
`PipeFailed` write variant regardless of the wait outcome; when the write
succeeds and only the wait fails, the `WaitFailed` variant is returned. -/
theorem pipe_failure_priority (out : String) (hne : out.isEmpty = false) :
    (∀ (e : IoError) (wt : Except BossyError Unit),
      (pipe ⟨Except.ok out, Except.ok (), Except.error e, wt⟩).1
          = Except.error (PipeError.PipeFailed e) ∧
      PipeEvent.waitRx ∈ (pipe ⟨Except.ok out, Except.ok (), Except.error e, wt⟩).2) ∧
    (∀ e : BossyError,
      (pipe ⟨Except.ok out, Except.ok (), Except.ok (), Except.error e⟩).1
          = Except.error (PipeError.WaitFailed e)) := by
  refine ⟨fun e wt => ⟨?_, ?_⟩, fun e => ?_⟩ <;> simp [pipe, hne]

/-- Witness for claim C7: with nonempty output `"x"`, a failing write and a
failing wait, the reported error is the write failure and the wait event is in
the trace; with a succeeding write and failing wait, the wait failure is
reported. -/
theorem pipe_failure_priority_witness :
    ((pipe ⟨Except.ok "x", Except.ok (), Except.error ⟨"werr"⟩, Except.error ⟨"uerr"⟩⟩).1
        = Except.error (PipeError.PipeFailed ⟨"werr"⟩) ∧
      PipeEvent.waitRx ∈
        (pipe ⟨Except.ok "x", Except.ok (), Except.error ⟨"werr"⟩, Except.error ⟨"uerr"⟩⟩).2) ∧
    (pipe ⟨Except.ok "x", Except.ok (), Except.ok (), Except.error ⟨"uerr"⟩⟩).1
        = Except.error (PipeError.WaitFailed ⟨"uerr"⟩) :=
  ⟨(pipe_failure_priority "x" rfl).1 ⟨"werr"⟩ (Except.error ⟨"uerr"⟩),
   (pipe_failure_priority "x" rfl).2 ⟨"uerr"⟩⟩

/-- Claim C10: with a successful producer run yielding nonempty output, a
successful consumer spawn, a successful write and a successful wait, `pipe`
returns `Ok true`, and the trace records that the consumer was spawned with
stdin piped and stdout inherited (passed through, not captured). -/
theorem pipe_success_inherit_stdout (out : String) (hne : out.isEmpty = false) :
    pipe ⟨Except.ok out, Except.ok (), Except.ok (), Except.ok ()⟩ =
      (Except.ok true,
        [PipeEvent.runTx, PipeEvent.spawnRx StdioCfg.piped StdioCfg.inherit,
          PipeEvent.writeStdin, PipeEvent.waitRx]) := by
  simp [pipe, hne]

/-- Witness for claim C10 at the concrete nonempty output `"x"`. -/
theorem pipe_success_inherit_stdout_witness :
    pipe ⟨Except.ok "x", Except.ok (), Except.ok (), Except.ok ()⟩ =
      (Except.ok true,
        [PipeEvent.runTx, PipeEvent.spawnRx StdioCfg.piped StdioCfg.inherit,
          PipeEvent.writeStdin, PipeEvent.waitRx]) :=
  pipe_success_inherit_stdout "x" rfl

/-- Claim C8: when the command succeeds but the pattern finds no match in the
output, `run_and_search` returns `SearchFailed` carrying the command display
string and the full output unmodified, never a partial value; when a match is
found, it returns the transform applied to the full text and the captures. -/
theorem run_and_search_match_or_fail {T : Type} (cmd out : String)
    (captures : String → Option (List String)) (f : String → List String → T) :
    (captures out = none →
      run_and_search cmd (Except.ok out) captures f
        = Except.error (RunAndSearchError.SearchFailed cmd out)) ∧
    (∀ caps, captures out = some caps →
      run_and_search cmd (Except.ok out) captures f = Except.ok (f out caps)) := by
  refine ⟨fun h => ?_, fun caps h => ?_⟩ <;> simp [run_and_search, h]

/-- Witness for claim C8: `caps0` rejects `"zz"` (search failure carrying the
output verbatim) and matches `"abc"` (transform result returned). -/
theorem run_and_search_match_or_fail_witness :
    run_and_search "rustc --version" (Except.ok "zz") caps0 f0
        = Except.error (RunAndSearchError.SearchFailed "rustc --version" "zz") ∧
    run_and_search "rustc --version" (Except.ok "abc") caps0 f0 = Except.ok 3 :=
  ⟨(run_and_search_match_or_fail "rustc --version" "zz" caps0 f0).1 rfl,
   (run_and_search_match_or_fail "rustc --version" "abc" caps0 f0).2 ["abc"] rfl⟩
